import Mathlib

/-!
Verification of the request-orchestration and resilience layer of the
voice-type-transformer repository.

The TypeScript sources are shallowly embedded: every async function is a
total Lean function over an explicit environment value describing the
outcome of each external effect (file read, fetch, JSON parse).  JavaScript
string operations (`split`, `trim`, `includes`, truthiness of `x || d`)
are re-implemented over `List Char` with structural recursion so that all
definitions are executable and kernel-reducible.
-/

namespace VTT

/-! ## JavaScript string primitives -/

/-- JS `String.prototype.trim` whitespace test (space, tab, LF, CR cover
the characters that occur in this code base's data). -/
def isJsWs (c : Char) : Bool := c = ' ' || c = '\t' || c = '\n' || c = '\r'

/-- Drop leading whitespace from a character list. -/
def dropWs : List Char → List Char
  | [] => []
  | c :: t => if isJsWs c then dropWs t else c :: t

/-- Trim both ends of a character list. -/
def trimCharList (l : List Char) : List Char :=
  ((dropWs ((dropWs l).reverse)).reverse)

/-- JS `s.trim()`. -/
def jsTrim (s : String) : String := String.mk (trimCharList s.toList)

/-- JS `x || d` where `x` is a possibly-absent string field
(`undefined` and `""` are both falsy). -/
def jsOr (v : Option String) (d : String) : String :=
  match v with
  | none => d
  | some s => if s = "" then d else s

/-- JS `s || d` for a plain string. -/
def strOr (s d : String) : String := if s = "" then d else s

/-- JS `hay.includes(needle)` over character lists. -/
def containsSub (needle : List Char) : List Char → Bool
  | [] => needle.isPrefixOf []
  | c :: t => needle.isPrefixOf (c :: t) || containsSub needle t

/-- JS `s.toLowerCase()` (ASCII range, which covers the fixed needle
`"audio"` and the HTTP error bodies classified here). -/
def jsLower (s : String) : String := String.mk (s.toList.map Char.toLower)

/-- JS `split(sep).pop()` and friends: split a character list on a
single-character separator. -/
def splitOnChar (sep : Char) : List Char → List (List Char)
  | [] => [[]]
  | c :: t =>
    let rest := splitOnChar sep t
    if c = sep then [] :: rest
    else match rest with
      | [] => [[c]]
      | h :: r => (c :: h) :: r

/-- JS `s.split(sep)` for a one-character separator. -/
def jsSplit (s : String) (sep : Char) : List String :=
  (splitOnChar sep s.toList).map String.mk

/-! ## Effect bookkeeping

Each embedded function reports, besides its result, whether it reached a
network call, which timeout duration (if any) it armed via `setTimeout`,
and the trace of timer events on the path taken. -/

inductive TimerEvent where
  | set
  | fire
  | clear
deriving DecidableEq, Repr

instance : BEq TimerEvent := ⟨fun a b => decide (a = b)⟩

structure Effects where
  networkCalled : Bool
  timerSet : Option Nat
  timerEvents : List TimerEvent
deriving DecidableEq, Repr

def noEffects : Effects := ⟨false, none, []⟩

/-- A timer is pending after the call iff it was armed and neither fired
nor was cleared. -/
def timerPending (evs : List TimerEvent) : Bool :=
  evs.contains .set && !(evs.contains .clear || evs.contains .fire)

/-- Outcome of a JS `JSON.parse`/`response.json()` step. -/
inductive JsonOutcome (α : Type) where
  | fail (msg : String)
  | ok (v : α)
deriving DecidableEq, Repr

instance {ε α : Type} [DecidableEq ε] [DecidableEq α] : DecidableEq (Except ε α) :=
  fun a b =>
    match a, b with
    | .error x, .error y =>
      if h : x = y then .isTrue (by rw [h])
      else .isFalse (by intro hc; injection hc; contradiction)
    | .ok x, .ok y =>
      if h : x = y then .isTrue (by rw [h])
      else .isFalse (by intro hc; injection hc; contradiction)
    | .error _, .ok _ => .isFalse (by intro hc; exact Except.noConfusion hc)
    | .ok _, .error _ => .isFalse (by intro hc; exact Except.noConfusion hc)

end VTT

namespace VTT

/-! ## src/lib/transcription.ts -/

namespace Transcription

/-- Embeds `Provider` from `src/lib/api-keys.ts` (`"openai" | "groq"`). -/
inductive Provider where
  | openai
  | groq
deriving DecidableEq, Repr

def TRANSCRIBE_TIMEOUT_MS : Nat := 60000
def POLISH_TIMEOUT_MS : Nat := 30000

def getApiEndpoint (provider : Provider) : String :=
  match provider with
  | .groq => "https://api.groq.com/openai/v1"
  | .openai => "https://api.openai.com/v1"

def getWhisperModel (provider : Provider) : String :=
  match provider with
  | .groq => "whisper-large-v3-turbo"
  | .openai => "whisper-1"

def getChatModel (provider : Provider) : String :=
  match provider with
  | .groq => "llama-3.3-70b-versatile"
  | .openai => "gpt-4o-mini"

/-- Embeds `errorText.toLowerCase().includes("audio")` from line 301. -/
def containsAudio (s : String) : Bool :=
  containsSub ("audio".toList) (jsLower s).toList

/-- Embeds `parseErrorMessage` (lines 290-307). -/
def parseErrorMessage (status : Nat) (errorText : String) : String :=
  if status = 401 then
    "Invalid API key. Please check your key in Settings."
  else if status = 429 then
    "Rate limit exceeded. Please wait a moment and try again."
  else if status = 413 then
    "Recording is too long. Try a shorter recording."
  else if status = 400 then
    if containsAudio errorText then
      "Audio format not supported. Please try recording again."
    else errorText
  else
    "Transcription failed (" ++ toString status ++ "): " ++ errorText

/-- Embeds `audioUri.split(".").pop()?.split("?")[0] || "m4a"` (line 71). -/
def fileExtension (audioUri : String) : String :=
  let lastSeg := (jsSplit audioUri '.').getLastD ""
  let stripped := (jsSplit lastSeg '?').headD ""
  strOr stripped "m4a"

/-- MIME resolution table (lines 72-75). -/
def mimeType (ext : String) : String :=
  if ext = "webm" then "audio/webm"
  else if ext = "mp4" then "audio/mp4"
  else if ext = "caf" then "audio/x-caf"
  else "audio/m4a"

/-- Outcome of the legacy file-system read in `transcribeNative`. -/
inductive ReadOutcome where
  | failure (msg : String)
  | success (base64 : String)
deriving DecidableEq, Repr

/-- How the error body of a non-2xx provider response parses as JSON:
`none` = `JSON.parse` throws; `some f` = parse succeeds with
`errJson?.error?.message` = `f` (`none` for an absent field). -/
abbrev ErrJsonField := Option (Option String)

/-- A resolved provider response: `ok`/`status`, the body text
(`response.text()`, already `""` when that read rejected), and how the
body parses as JSON when taken down the error path. -/
structure ProviderResp where
  ok : Bool
  status : Nat
  bodyText : String
  jsonErrMsg : ErrJsonField
deriving DecidableEq, Repr

/-- Outcome of the `expoFetch` call in `transcribeNative`:
timer-driven abort, other rejection, or a resolved response. -/
inductive FetchResult where
  | abort
  | netError (msg : String)
  | resp (r : ProviderResp)
deriving DecidableEq, Repr

/-- The `errMsg` computation of lines 139-146: start from
`"API error (<status>)"`, prefer the JSON `error.message` when the body
parses, otherwise fall back to the raw body text when non-empty. -/
def nativeErrMsg (status : Nat) (bodyText : String) (j : ErrJsonField) : String :=
  let base := "API error (" ++ toString status ++ ")"
  match j with
  | none => if bodyText = "" then base else bodyText
  | some f => jsOr f base

structure NativeEnv where
  readResult : ReadOutcome
  fetchResult : FetchResult
deriving DecidableEq, Repr

/-- Embeds `transcribeNative` (lines 52-161): read + sanity-check the audio,
arm a 60 s abort timer, call the provider, classify failures, and reject
empty transcripts.  The timer trace follows the `try`/`catch` structure:
the success path clears once (line 136); the throw-after-response paths
clear again in the catch (line 156); rejections clear in the catch. -/
def transcribeNative (_audioUri _apiKey : String) (_provider : Provider)
    (env : NativeEnv) : Except String String × Effects :=
  match env.readResult with
  | .failure m => (.error ("Could not read audio file: " ++ m), noEffects)
  | .success base64 =>
    if base64.length < 100 then
      (.error "Recording was too short or empty. Please try again.", noEffects)
    else
      match env.fetchResult with
      | .abort =>
        (.error "Transcription timed out. Check your internet connection and try again.",
         ⟨true, some TRANSCRIBE_TIMEOUT_MS, [.set, .fire, .clear]⟩)
      | .netError m =>
        (.error m, ⟨true, some TRANSCRIBE_TIMEOUT_MS, [.set, .clear]⟩)
      | .resp r =>
        if r.ok = false then
          (.error (parseErrorMessage r.status (nativeErrMsg r.status r.bodyText r.jsonErrMsg)),
           ⟨true, some TRANSCRIBE_TIMEOUT_MS, [.set, .clear, .clear]⟩)
        else
          let text := jsTrim r.bodyText
          if text = "" then
            (.error "No speech detected. Please speak clearly and try again.",
             ⟨true, some TRANSCRIBE_TIMEOUT_MS, [.set, .clear, .clear]⟩)
          else
            (.ok text, ⟨true, some TRANSCRIBE_TIMEOUT_MS, [.set, .clear]⟩)

/-- Outcome of the `FileReader` conversion in `transcribeWeb`. -/
inductive ReaderOutcome where
  | readErr
  | noB64
  | converted (b64 : String)
deriving DecidableEq, Repr

/-- Body of a relay JSON response as inspected by `transcribeWeb`
(`data.error`, `data.text`; absent fields are `none`). -/
structure RelayBody where
  error : Option String
  text : Option String
deriving DecidableEq, Repr

/-- Outcome of the relay call in `transcribeWeb`. -/
inductive RelayOutcome where
  | netError (msg : String)
  | resp (ok : Bool) (status : Nat) (json : JsonOutcome RelayBody)
deriving DecidableEq, Repr

structure WebEnv where
  blobFetch : Except String String
  reader : ReaderOutcome
  relay : RelayOutcome
deriving Repr

/-- Embeds `transcribeWeb` (lines 164-208): convert the blob, post it to the
relay as JSON, classify failures, and reject empty transcripts.  Note:
this path arms no timer and uses no abort signal. -/
def transcribeWeb (_audioUri _apiKey : String) (_provider : Provider)
    (env : WebEnv) : Except String String × Effects :=
  match env.blobFetch with
  | .error m => (.error m, noEffects)
  | .ok blobType =>
    let _mime := strOr blobType "audio/webm"
    match env.reader with
    | .readErr => (.error "Failed to read audio. Please try again.", noEffects)
    | .noB64 => (.error "Failed to convert audio. Please try again.", noEffects)
    | .converted _b64 =>
      match env.relay with
      | .netError m => (.error m, ⟨true, none, []⟩)
      | .resp rok status json =>
        if rok = false then
          let serverErr := "Server error (" ++ toString status ++ ")"
          let errMsg := match json with
            | .fail _ => serverErr
            | .ok b => jsOr b.error serverErr
          (.error (parseErrorMessage status errMsg), ⟨true, none, []⟩)
        else
          match json with
          | .fail m => (.error m, ⟨true, none, []⟩)
          | .ok b =>
            match b.text with
            | none =>
              (.error "No speech detected. Please speak clearly and try again.",
               ⟨true, none, []⟩)
            | some t =>
              if jsTrim t = "" then
                (.error "No speech detected. Please speak clearly and try again.",
                 ⟨true, none, []⟩)
              else (.ok (jsTrim t), ⟨true, none, []⟩)

/-- Outcome of the chat-completions call in `polishNative`.  A resolved
response carries `choices?.[0]?.message?.content` (`none` when any link
of the chain is absent) behind the `response.json()` outcome. -/
inductive PolishFetchOutcome where
  | abort
  | netError (msg : String)
  | resp (ok : Bool) (status : Nat) (json : JsonOutcome (Option String))
deriving DecidableEq, Repr

/-- Embeds `polishNative` (lines 221-264): every failure path returns the raw
text.  Timer trace: the catch block (lines 261-263) does not clear the
timer, so a pre-response rejection leaves it pending; an abort means the
timer already fired. -/
def polishNative (rawText _apiKey : String) (_provider : Provider)
    (o : PolishFetchOutcome) : String × Effects :=
  match o with
  | .abort => (rawText, ⟨true, some POLISH_TIMEOUT_MS, [.set, .fire]⟩)
  | .netError _ => (rawText, ⟨true, some POLISH_TIMEOUT_MS, [.set]⟩)
  | .resp ok _ json =>
    if ok = false then (rawText, ⟨true, some POLISH_TIMEOUT_MS, [.set, .clear]⟩)
    else
      match json with
      | .fail _ => (rawText, ⟨true, some POLISH_TIMEOUT_MS, [.set, .clear]⟩)
      | .ok content =>
        (jsOr (content.map jsTrim) rawText, ⟨true, some POLISH_TIMEOUT_MS, [.set, .clear]⟩)

/-- Outcome of the relay call in `polishWeb`; a resolved response
carries the `data.text` field. -/
inductive RelayPolishOutcome where
  | netError (msg : String)
  | resp (ok : Bool) (status : Nat) (json : JsonOutcome (Option String))
deriving DecidableEq, Repr

/-- Embeds `polishWeb` (lines 266-288): every failure path returns the raw
text; the success path returns `data.text || rawText` with no trim and
no timer. -/
def polishWeb (rawText _apiKey : String) (_provider : Provider)
    (o : RelayPolishOutcome) : String × Effects :=
  match o with
  | .netError _ => (rawText, ⟨true, none, []⟩)
  | .resp ok _ json =>
    if ok = false then (rawText, ⟨true, none, []⟩)
    else
      match json with
      | .fail _ => (rawText, ⟨true, none, []⟩)
      | .ok textField => (jsOr textField rawText, ⟨true, none, []⟩)

/-- Embeds `Platform.OS` as dispatched on by `transcribeAudio`/`polishTranscript`. -/
inductive PlatformOS where
  | web
  | native
deriving DecidableEq, Repr

/-- Embeds `transcribeAudio` (lines 41-50). -/
def transcribeAudio (os : PlatformOS) (audioUri apiKey : String)
    (provider : Provider) (nEnv : NativeEnv) (wEnv : WebEnv) :
    Except String String × Effects :=
  match os with
  | .web => transcribeWeb audioUri apiKey provider wEnv
  | .native => transcribeNative audioUri apiKey provider nEnv

/-- Embeds `polishTranscript` (lines 210-219). -/
def polishTranscript (os : PlatformOS) (rawText apiKey : String)
    (provider : Provider) (nEnv : PolishFetchOutcome) (wEnv : RelayPolishOutcome) :
    String × Effects :=
  match os with
  | .web => polishWeb rawText apiKey provider wEnv
  | .native => polishNative rawText apiKey provider nEnv

/-- The refinement-call failure modes enumerated for the native path:
abort (timeout), rejection (unreachable endpoint), non-2xx response,
malformed response body. -/
def nativePolishFailure (o : PolishFetchOutcome) : Bool :=
  match o with
  | .abort => true
  | .netError _ => true
  | .resp ok _ json =>
    !ok || (match json with | .fail _ => true | .ok _ => false)

/-- The refinement-call failure modes for the web path. -/
def webPolishFailure (o : RelayPolishOutcome) : Bool :=
  match o with
  | .netError _ => true
  | .resp ok _ json =>
    !ok || (match json with | .fail _ => true | .ok _ => false)

end Transcription

end VTT

namespace VTT

/-! ## src/unnamed/part_004 (legacy transcription module) -/

namespace Part004

open Transcription (Provider)

/-- Embeds `parseErrorMessage` of the legacy module (lines 177-188): no 400
special case at all. -/
def parseErrorMessage (status : Nat) (errorText : String) : String :=
  if status = 401 then
    "Invalid API key. Please check your key in Settings."
  else if status = 429 then
    "Rate limit exceeded. Please wait a moment and try again."
  else if status = 413 then
    "Recording is too long. Try a shorter recording."
  else
    "Transcription failed (" ++ toString status ++ "): " ++ errorText

/-- Embeds `audioUri.split(".").pop() || "m4a"` (line 63, no query stripping). -/
def fileExtension (audioUri : String) : String :=
  strOr ((jsSplit audioUri '.').getLastD "") "m4a"

/-- Outcome of the provider call in `transcribeDirect`. -/
inductive DirectOutcome where
  | netError (msg : String)
  | resp (ok : Bool) (status : Nat) (bodyText : String)
deriving DecidableEq, Repr

/-- Embeds `transcribeDirect` (lines 56-95): posts FormData straight to the
provider; a 2xx response is returned as `text.trim()` with no
empty-result guard and no timer. -/
def transcribeDirect (_audioUri _apiKey : String) (_provider : Provider)
    (o : DirectOutcome) : Except String String :=
  match o with
  | .netError m => .error m
  | .resp ok status bodyText =>
    if ok = false then .error (parseErrorMessage status bodyText)
    else .ok (jsTrim bodyText)

end Part004

end VTT

namespace VTT

/-! ## src/server/routes.ts -/

namespace Routes

/-- JS truthiness test for a possibly-absent string field of `req.body`. -/
def jsFalsy (v : Option String) : Bool :=
  match v with
  | none => true
  | some s => s = ""

/-- Body of `POST /api/transcribe` as destructured on line 7. -/
structure TranscribeBody where
  apiKey : Option String
  provider : Option String
  audioBase64 : Option String
  mimeType : Option String
deriving DecidableEq, Repr

/-- Body of `POST /api/polish` as destructured on line 69. -/
structure PolishBody where
  apiKey : Option String
  provider : Option String
  text : Option String
deriving DecidableEq, Repr

/-- Outcome of the upstream provider fetch made by a route handler. -/
inductive UpstreamOutcome where
  | netError (msg : String)
  | resp (ok : Bool) (status : Nat) (bodyText : String)
deriving DecidableEq, Repr

/-- A response the route sends: either a JSON error with a status, or a
200 JSON `{text}`. -/
inductive RouteResp where
  | errJson (status : Nat) (error : String)
  | okJson (text : String)
deriving DecidableEq, Repr

/-- Embeds `mimeType?.includes("webm") ? "webm" : mimeType?.includes("mp4") ? "mp4" : "m4a"`
(line 15). -/
def extFromMime (m : Option String) : String :=
  match m with
  | none => "m4a"
  | some s =>
    if containsSub ("webm".toList) s.toList then "webm"
    else if containsSub ("mp4".toList) s.toList then "mp4"
    else "m4a"

/-- The `POST /api/transcribe` handler (lines 5-65).  Returns the
response sent together with whether the upstream fetch was reached. -/
def transcribeRoute (body : TranscribeBody) (upstream : UpstreamOutcome) :
    RouteResp × Bool :=
  if jsFalsy body.apiKey || jsFalsy body.provider || jsFalsy body.audioBase64 then
    (.errJson 400 "Missing required fields", false)
  else
    match upstream with
    | .netError m => (.errJson 500 (strOr m "Internal server error"), true)
    | .resp ok status bodyText =>
      if ok = false then (.errJson status bodyText, true)
      else (.okJson (jsTrim bodyText), true)

/-- Outcome of the upstream chat call made by the polish handler: the
non-2xx arm reads `response.text()`, the 2xx arm reads `response.json()`
and inspects `choices?.[0]?.message?.content`. -/
inductive PolishUpstream where
  | netError (msg : String)
  | resp (ok : Bool) (status : Nat) (errText : String) (json : JsonOutcome (Option String))
deriving DecidableEq, Repr

/-- The `POST /api/polish` handler (lines 67-113). -/
def polishRoute (body : PolishBody) (up : PolishUpstream) : RouteResp × Bool :=
  if jsFalsy body.apiKey || jsFalsy body.text then
    (.errJson 400 "Missing required fields", false)
  else
    let reqText := match body.text with | some t => t | none => ""
    match up with
    | .netError m => (.errJson 500 (strOr m "Internal server error"), true)
    | .resp ok status errText json =>
      if ok = false then (.errJson status errText, true)
      else
        match json with
        | .fail m => (.errJson 500 (strOr m "Internal server error"), true)
        | .ok content => (.okJson (jsOr (content.map jsTrim) reqText), true)

end Routes

end VTT

namespace VTT

/-! ## src/app/index.tsx — `stopRecording` orchestration -/

namespace App

open Transcription (Provider)

/-- Externally observable steps of one `stopRecording` run. -/
inductive StepEvent where
  | transcribeCall
  | polishCall
deriving DecidableEq, Repr

instance : BEq StepEvent := ⟨fun a b => decide (a = b)⟩

/-- Outcome of one `stopRecording` processing run (lines 182-223):
bail out without a key, fail via the catch-block alert, or complete
with raw and polished text. -/
inductive FlowResult where
  | noKey
  | failed (alertMsg : String)
  | completed (raw polished : String)
deriving DecidableEq, Repr

/-- The processing tail of `stopRecording` (lines 182-223): re-check the
key, transcribe, and only on transcription success polish.  The catch
block surfaces `err.message` via an alert.  `polish` is the behaviour of
`polishTranscript` on this run (total: it never throws). -/
def stopRecordingFlow (keyData : Option (String × Provider))
    (transcribeResult : Except String String) (polish : String → String) :
    FlowResult × List StepEvent :=
  match keyData with
  | none => (.noKey, [])
  | some _ =>
    match transcribeResult with
    | .error msg => (.failed msg, [.transcribeCall])
    | .ok raw => (.completed raw (polish raw), [.transcribeCall, .polishCall])

end App

end VTT

namespace VTT

/-! ## Helper lemmas -/

/-- The value `jsOr v d` is never empty when the default is non-empty. -/
theorem jsOr_ne_empty (v : Option String) (d : String) (hd : d ≠ "") :
    jsOr v d ≠ "" := by
  cases v with
  | none => simpa [jsOr] using hd
  | some s =>
    by_cases hs : s = ""
    · simpa [jsOr, hs] using hd
    · simp [jsOr, hs]

/-! ## Claims -/

open Transcription

/-- C4: for every failed upstream response with HTTP status 401,
regardless of its body content, the error classifier — in both the
active module `src/lib/transcription.ts` and the legacy variant
`src/unnamed/part_004` — produces exactly the fixed string
"Invalid API key. Please check your key in Settings.". -/
theorem claim_C4_status401_fixed (body : String) :
    Transcription.parseErrorMessage 401 body =
      "Invalid API key. Please check your key in Settings." ∧
    Part004.parseErrorMessage 401 body =
      "Invalid API key. Please check your key in Settings." := by
  exact ⟨rfl, rfl⟩

/-- C1: for every input text, API key and provider, whenever the
refinement call fails in any way (timeout abort, unreachable endpoint,
non-2xx response, malformed response body), `polishTranscript` returns
exactly the input text unchanged on both platform paths; the embedding
is total, so no error escapes to the caller. -/
theorem claim_C1_polish_identity_on_failure (raw key : String) (p : Provider)
    (nEnv : PolishFetchOutcome) (wEnv : RelayPolishOutcome)
    (hn : nativePolishFailure nEnv = true) (hw : webPolishFailure wEnv = true) :
    (polishTranscript .native raw key p nEnv wEnv).1 = raw ∧
    (polishTranscript .web raw key p nEnv wEnv).1 = raw := by
  constructor
  · cases nEnv with
    | abort => rfl
    | netError m => rfl
    | resp ok status json =>
      cases ok with
      | false => simp [polishTranscript, polishNative]
      | true =>
        cases json with
        | fail m => simp [polishTranscript, polishNative]
        | ok c => simp [nativePolishFailure] at hn
  · cases wEnv with
    | netError m => rfl
    | resp ok status json =>
      cases ok with
      | false => simp [polishTranscript, polishWeb]
      | true =>
        cases json with
        | fail m => simp [polishTranscript, polishWeb]
        | ok c => simp [webPolishFailure] at hw

/-- C1 witness: a concrete unreachable-endpoint failure on both paths
returns the input "hello" unchanged. -/
theorem claim_C1_witness :
    (polishTranscript .native "hello" "sk-k" .openai (.netError "ECONNREFUSED")
      (.netError "ECONNREFUSED")).1 = "hello" ∧
    (polishTranscript .web "hello" "sk-k" .openai (.netError "ECONNREFUSED")
      (.netError "ECONNREFUSED")).1 = "hello" :=
  claim_C1_polish_identity_on_failure "hello" "sk-k" .openai
    (.netError "ECONNREFUSED") (.netError "ECONNREFUSED") (by decide) (by decide)

/-- C5 counterexample: for the location reference "recording.ogg" the
extension is computed as "ogg", not the claimed default "m4a" for an
unrecognized suffix; only the MIME type falls back to audio/m4a. -/
theorem claim_C5_counterexample :
    Transcription.fileExtension "recording.ogg" = "ogg" ∧
    ("ogg" : String) ≠ "m4a" ∧
    Transcription.mimeType (Transcription.fileExtension "recording.ogg") =
      "audio/m4a" := by decide

/-- C5 (amended): the extension is the suffix after the last `.` with a
trailing query fragment stripped, defaulting to "m4a" only when that
suffix is empty (an unrecognized or dot-free suffix is kept verbatim),
and the MIME type follows the fixed table webm→audio/webm,
mp4→audio/mp4, caf→audio/x-caf with every other extension mapped to
audio/m4a. -/
theorem claim_C5_amended :
    (∀ e : String, e ≠ "webm" → e ≠ "mp4" → e ≠ "caf" →
      Transcription.mimeType e = "audio/m4a") ∧
    Transcription.mimeType "webm" = "audio/webm" ∧
    Transcription.mimeType "mp4" = "audio/mp4" ∧
    Transcription.mimeType "caf" = "audio/x-caf" ∧
    Transcription.fileExtension "recording.m4a?session=2" = "m4a" ∧
    Transcription.fileExtension "a.b.webm" = "webm" ∧
    Transcription.fileExtension "clip.mp4?t=1" = "mp4" ∧
    Transcription.fileExtension "trailingdot." = "m4a" ∧
    Transcription.fileExtension "noextension" = "noextension" := by
  refine ⟨?_, by decide, by decide, by decide, by decide, by decide,
    by decide, by decide, by decide⟩
  intro e h1 h2 h3
  simp [Transcription.mimeType, h1, h2, h3]

/-- C5 witness: the MIME fallback of the amended table at the concrete
unrecognized extension "ogg". -/
theorem claim_C5_witness : Transcription.mimeType "ogg" = "audio/m4a" :=
  claim_C5_amended.1 "ogg" (by decide) (by decide) (by decide)

/-- C6 counterexample: the legacy classifier of `src/unnamed/part_004`
has no 400 clause: a 400 body containing "audio" is classified with the
generic message, not the fixed "Audio format not supported…" string. -/
theorem claim_C6_counterexample :
    Part004.parseErrorMessage 400 "Unsupported audio codec" =
      "Transcription failed (400): Unsupported audio codec" ∧
    Part004.parseErrorMessage 400 "Unsupported audio codec" ≠
      "Audio format not supported. Please try recording again." := by decide

/-- C6 (amended): in `src/lib/transcription.ts`, a 400 whose body
contains the case-insensitive substring "audio" classifies to the fixed
"Audio format not supported…" string, and any other 400 classifies to
the raw body text verbatim; the legacy classifier of
`src/unnamed/part_004` instead returns
"Transcription failed (400): `<body>`" for every 400. -/
theorem claim_C6_amended (body : String) :
    (Transcription.containsAudio body = true →
      Transcription.parseErrorMessage 400 body =
        "Audio format not supported. Please try recording again.") ∧
    (Transcription.containsAudio body = false →
      Transcription.parseErrorMessage 400 body = body) ∧
    Part004.parseErrorMessage 400 body = "Transcription failed (400): " ++ body := by
  refine ⟨fun h => ?_, fun h => ?_, rfl⟩
  · simp [Transcription.parseErrorMessage, h]
  · simp [Transcription.parseErrorMessage, h]

/-- C6 witness: the two 400 branches of the active classifier at
concrete bodies. -/
theorem claim_C6_witness :
    Transcription.parseErrorMessage 400 "bad Audio format" =
      "Audio format not supported. Please try recording again." ∧
    Transcription.parseErrorMessage 400 "malformed multipart" =
      "malformed multipart" :=
  ⟨(claim_C6_amended "bad Audio format").1 (by decide),
   (claim_C6_amended "malformed multipart").2.1 (by decide)⟩

/-- C7: an unreadable audio resource fails with the could-not-read
message, and a readable body shorter than the 100-character sanity
threshold fails with the too-short message; in both cases no network
call is attempted (the effects are `noEffects`, whose `networkCalled`
is false). -/
theorem claim_C7_payload_guard (u k : String) (p : Provider)
    (fr : FetchResult) (m b64 : String) (hlen : b64.length < 100) :
    Transcription.transcribeNative u k p ⟨.failure m, fr⟩ =
      (.error ("Could not read audio file: " ++ m), noEffects) ∧
    Transcription.transcribeNative u k p ⟨.success b64, fr⟩ =
      (.error "Recording was too short or empty. Please try again.", noEffects) ∧
    noEffects.networkCalled = false := by
  refine ⟨rfl, ?_, rfl⟩
  simp [Transcription.transcribeNative, hlen]

/-- C7 witness: a concrete 5-character body is rejected as too short
with no network call. -/
theorem claim_C7_witness :
    Transcription.transcribeNative "file:///rec.m4a" "sk-k" .openai
      ⟨.success "AAAAB", .abort⟩ =
      (.error "Recording was too short or empty. Please try again.", noEffects) :=
  (claim_C7_payload_guard "file:///rec.m4a" "sk-k" .openai .abort "io" "AAAAB"
    (by decide)).2.1

/-- C8: both relay routes validate required fields before any upstream
call: `POST /api/transcribe` answers 400 "Missing required fields" with
no upstream fetch whenever `apiKey`, `provider` or `audioBase64` is
absent, and `POST /api/polish` does the same whenever `apiKey` or
`text` is absent. -/
theorem claim_C8_required_fields (tb : Routes.TranscribeBody)
    (pb : Routes.PolishBody) (uT : Routes.UpstreamOutcome)
    (uP : Routes.PolishUpstream) :
    (tb.apiKey = none ∨ tb.provider = none ∨ tb.audioBase64 = none →
      Routes.transcribeRoute tb uT = (.errJson 400 "Missing required fields", false)) ∧
    (pb.apiKey = none ∨ pb.text = none →
      Routes.polishRoute pb uP = (.errJson 400 "Missing required fields", false)) := by
  constructor
  · intro h
    rcases h with h | h | h <;> simp [Routes.transcribeRoute, Routes.jsFalsy, h]
  · intro h
    rcases h with h | h <;> simp [Routes.polishRoute, Routes.jsFalsy, h]

/-- C8 witness: a transcribe body missing `apiKey` and a polish body
missing `text` are both rejected with 400 and no upstream call. -/
theorem claim_C8_witness :
    Routes.transcribeRoute ⟨none, some "openai", some "QUJD", some "audio/webm"⟩
      (.resp true 200 "hi") = (.errJson 400 "Missing required fields", false) ∧
    Routes.polishRoute ⟨some "sk-k", some "openai", none⟩ (.netError "boom") =
      (.errJson 400 "Missing required fields", false) :=
  ⟨(claim_C8_required_fields ⟨none, some "openai", some "QUJD", some "audio/webm"⟩
      ⟨some "sk-k", some "openai", none⟩ (.resp true 200 "hi") (.netError "boom")).1
      (Or.inl rfl),
   (claim_C8_required_fields ⟨none, some "openai", some "QUJD", some "audio/webm"⟩
      ⟨some "sk-k", some "openai", none⟩ (.resp true 200 "hi") (.netError "boom")).2
      (Or.inr rfl)⟩

end VTT

namespace VTT

open Transcription

/-- C2 counterexample: the legacy `transcribeDirect` of
`src/unnamed/part_004` has no empty-result guard: an HTTP 200 response
whose body is whitespace-only is returned as the successful empty
string instead of failing with the "No speech detected" message. -/
theorem claim_C2_counterexample :
    Part004.transcribeDirect "file:///rec.m4a" "sk-test" .openai
      (.resp true 200 "   ") = .ok "" ∧
    Part004.transcribeDirect "file:///rec.m4a" "sk-test" .openai
      (.resp true 200 "   ") ≠
      .error "No speech detected. Please speak clearly and try again." := by
  decide

/-- C2 (amended): in the active module `src/lib/transcription.ts`, a
200 response whose body is empty or whitespace-only makes both the
native and the web transcription path fail with the "No speech
detected" message, and neither path ever returns the empty string as a
success; the legacy variant in `src/unnamed/part_004` lacks this
guard. -/
theorem claim_C2_amended (u k : String) (p : Provider) :
    (∀ (b64 : String) (r : ProviderResp), 100 ≤ b64.length → r.ok = true →
      jsTrim r.bodyText = "" →
      (Transcription.transcribeNative u k p ⟨.success b64, .resp r⟩).1 =
        .error "No speech detected. Please speak clearly and try again.") ∧
    (∀ (env : NativeEnv) (s : String),
      (Transcription.transcribeNative u k p env).1 = .ok s → s ≠ "") ∧
    (∀ (bt rd : String) (st : Nat) (b : RelayBody),
      (b.text = none ∨ ∃ t, b.text = some t ∧ jsTrim t = "") →
      (Transcription.transcribeWeb u k p
        ⟨.ok bt, .converted rd, .resp true st (.ok b)⟩).1 =
        .error "No speech detected. Please speak clearly and try again.") ∧
    (∀ (env : WebEnv) (s : String),
      (Transcription.transcribeWeb u k p env).1 = .ok s → s ≠ "") := by
  refine ⟨?_, ?_, ?_, ?_⟩
  · intro b64 r hlen hok htrim
    simp [Transcription.transcribeNative, Nat.not_lt.mpr hlen, hok, htrim]
  · intro env s h
    obtain ⟨rr, fr⟩ := env
    cases rr with
    | failure m => simp [Transcription.transcribeNative] at h
    | success b64 =>
      by_cases hlen : b64.length < 100
      · simp [Transcription.transcribeNative, hlen] at h
      · cases fr with
        | abort => simp [Transcription.transcribeNative, hlen] at h
        | netError m => simp [Transcription.transcribeNative, hlen] at h
        | resp r =>
          by_cases hok : r.ok = false
          · simp [Transcription.transcribeNative, hlen, hok] at h
          · by_cases ht : jsTrim r.bodyText = ""
            · simp [Transcription.transcribeNative, hlen, hok, ht] at h
            · simp [Transcription.transcribeNative, hlen, hok, ht] at h
              subst h
              exact ht
  · intro bt rd st b hb
    rcases hb with hb | ⟨t, hbt, ht⟩
    · simp [Transcription.transcribeWeb, hb]
    · simp [Transcription.transcribeWeb, hbt, ht]
  · intro env s h
    obtain ⟨bf, rd, rl⟩ := env
    cases bf with
    | error m => simp [Transcription.transcribeWeb] at h
    | ok bt =>
      cases rd with
      | readErr => simp [Transcription.transcribeWeb] at h
      | noB64 => simp [Transcription.transcribeWeb] at h
      | converted b64 =>
        cases rl with
        | netError m => simp [Transcription.transcribeWeb] at h
        | resp rok st json =>
          by_cases hok : rok = false
          · simp [Transcription.transcribeWeb, hok] at h
          · cases json with
            | fail m => simp [Transcription.transcribeWeb, hok] at h
            | ok b =>
              cases hbt : b.text with
              | none => simp [Transcription.transcribeWeb, hok, hbt] at h
              | some t =>
                by_cases ht : jsTrim t = ""
                · simp [Transcription.transcribeWeb, hok, hbt, ht] at h
                · simp [Transcription.transcribeWeb, hok, hbt, ht] at h
                  subst h
                  exact ht

/-- C2 witness: a concrete 200 response carrying only whitespace is
rejected by the native path with the "No speech detected" message. -/
theorem claim_C2_witness :
    (Transcription.transcribeNative "file:///rec.m4a" "sk-test" .openai
      ⟨.success "QQQQQQQQQQQQQQQQQQQQQQQQQQQQQQQQQQQQQQQQQQQQQQQQQQQQQQQQQQQQQQQQQQQQQQQQQQQQQQQQQQQQQQQQQQQQQQQQQQQQQQQQ",
       .resp ⟨true, 200, "  \n ", none⟩⟩).1 =
      .error "No speech detected. Please speak clearly and try again." :=
  (claim_C2_amended "file:///rec.m4a" "sk-test" .openai).1
    "QQQQQQQQQQQQQQQQQQQQQQQQQQQQQQQQQQQQQQQQQQQQQQQQQQQQQQQQQQQQQQQQQQQQQQQQQQQQQQQQQQQQQQQQQQQQQQQQQQQQQQQQ"
    ⟨true, 200, "  \n ", none⟩ (by decide) rfl (by decide)

end VTT

namespace VTT

open Transcription

/-- C3 counterexample: the web transcription path performs its network
call with no timeout at all — no timer is armed and no abort signal is
attached — contradicting "every transcription operation is bounded by a
hard 60,000 ms timeout". -/
theorem claim_C3_counterexample :
    (Transcription.transcribeWeb "blob:demo" "sk-test" .openai
      ⟨.ok "audio/webm", .converted "QUJDRA", .netError "ECONNREFUSED"⟩).2.networkCalled
      = true ∧
    (Transcription.transcribeWeb "blob:demo" "sk-test" .openai
      ⟨.ok "audio/webm", .converted "QUJDRA", .netError "ECONNREFUSED"⟩).2.timerSet
      = none ∧
    (none : Option Nat) ≠ some Transcription.TRANSCRIBE_TIMEOUT_MS := by
  refine ⟨rfl, rfl, by decide⟩

/-- C3 (amended): the native transcription path arms a hard 60,000 ms
timeout whenever it reaches its network call, classifies a timeout
abort as the connectivity-guidance message, and leaves no pending timer
on any exit path; the native polish path arms a 30,000 ms timeout; the
web paths (counterexample) arm none. -/
theorem claim_C3_amended (u k : String) (p : Provider) (env : NativeEnv)
    (o : PolishFetchOutcome) :
    Transcription.TRANSCRIBE_TIMEOUT_MS = 60000 ∧
    Transcription.POLISH_TIMEOUT_MS = 30000 ∧
    ((Transcription.transcribeNative u k p env).2.networkCalled = true →
      (Transcription.transcribeNative u k p env).2.timerSet =
        some Transcription.TRANSCRIBE_TIMEOUT_MS) ∧
    timerPending (Transcription.transcribeNative u k p env).2.timerEvents = false ∧
    (env.fetchResult = .abort →
      (Transcription.transcribeNative u k p env).2.networkCalled = true →
      (Transcription.transcribeNative u k p env).1 =
        .error "Transcription timed out. Check your internet connection and try again.") ∧
    (Transcription.polishNative u k p o).2.timerSet =
      some Transcription.POLISH_TIMEOUT_MS := by
  refine ⟨rfl, rfl, ?_, ?_, ?_, ?_⟩
  · obtain ⟨rr, fr⟩ := env
    cases rr with
    | failure m =>
      intro h
      simp [Transcription.transcribeNative, noEffects] at h
    | success b64 =>
      by_cases hlen : b64.length < 100
      · intro h
        simp [Transcription.transcribeNative, hlen, noEffects] at h
      · intro _
        cases fr with
        | abort => simp [Transcription.transcribeNative, hlen]
        | netError m => simp [Transcription.transcribeNative, hlen]
        | resp r =>
          by_cases hok : r.ok = false
          · simp [Transcription.transcribeNative, hlen, hok]
          · by_cases ht : jsTrim r.bodyText = "" <;>
              simp [Transcription.transcribeNative, hlen, hok, ht]
  · obtain ⟨rr, fr⟩ := env
    cases rr with
    | failure m => simp [Transcription.transcribeNative, noEffects]; decide
    | success b64 =>
      by_cases hlen : b64.length < 100
      · simp [Transcription.transcribeNative, hlen, noEffects]; decide
      · cases fr with
        | abort => simp [Transcription.transcribeNative, hlen]; decide
        | netError m => simp [Transcription.transcribeNative, hlen]; decide
        | resp r =>
          by_cases hok : r.ok = false
          · simp [Transcription.transcribeNative, hlen, hok]; decide
          · by_cases ht : jsTrim r.bodyText = "" <;>
              · simp [Transcription.transcribeNative, hlen, hok, ht]; decide
  · obtain ⟨rr, fr⟩ := env
    intro habort
    cases rr with
    | failure m =>
      intro h
      simp [Transcription.transcribeNative, noEffects] at h
    | success b64 =>
      by_cases hlen : b64.length < 100
      · intro h
        simp [Transcription.transcribeNative, hlen, noEffects] at h
      · intro _
        simp only at habort
        subst habort
        simp [Transcription.transcribeNative, hlen]
  · cases o with
    | abort => rfl
    | netError m => rfl
    | resp ok st json =>
      cases ok with
      | false => rfl
      | true => cases json with
        | fail m => rfl
        | ok c => rfl

/-- C3 witness: with a 104-character payload and a timed-out fetch, the
native path reports the armed 60 s timer and the timeout message. -/
theorem claim_C3_witness :
    (Transcription.transcribeNative "file:///rec.m4a" "sk-test" .openai
      ⟨.success "QQQQQQQQQQQQQQQQQQQQQQQQQQQQQQQQQQQQQQQQQQQQQQQQQQQQQQQQQQQQQQQQQQQQQQQQQQQQQQQQQQQQQQQQQQQQQQQQQQQQQQQQ",
       .abort⟩).2.timerSet = some Transcription.TRANSCRIBE_TIMEOUT_MS ∧
    (Transcription.transcribeNative "file:///rec.m4a" "sk-test" .openai
      ⟨.success "QQQQQQQQQQQQQQQQQQQQQQQQQQQQQQQQQQQQQQQQQQQQQQQQQQQQQQQQQQQQQQQQQQQQQQQQQQQQQQQQQQQQQQQQQQQQQQQQQQQQQQQQ",
       .abort⟩).1 =
      .error "Transcription timed out. Check your internet connection and try again." := by
  have h := claim_C3_amended "file:///rec.m4a" "sk-test" .openai
    ⟨.success "QQQQQQQQQQQQQQQQQQQQQQQQQQQQQQQQQQQQQQQQQQQQQQQQQQQQQQQQQQQQQQQQQQQQQQQQQQQQQQQQQQQQQQQQQQQQQQQQQQQQQQQQ",
     .abort⟩ .abort
  exact ⟨h.2.2.1 (by decide), h.2.2.2.2.1 rfl (by decide)⟩

end VTT

namespace VTT

open Transcription

/-- C9: within one `stopRecording` invocation the event trace is always
a prefix of [transcribe, polish] — transcription strictly precedes
refinement — and when transcription fails the flow fails with the
classified message and never reaches the polish call; in particular an
HTTP 401 from the provider surfaces exactly the "Invalid API key…"
message with no polish attempt. -/
theorem claim_C9_ordering (kd : Option (String × Provider))
    (tr : Except String String) (pol : String → String) (key u : String)
    (p : Provider) (b64 msg : String) (r : ProviderResp) :
    ((App.stopRecordingFlow kd tr pol).2 = [] ∨
     (App.stopRecordingFlow kd tr pol).2 = [.transcribeCall] ∨
     (App.stopRecordingFlow kd tr pol).2 = [.transcribeCall, .polishCall]) ∧
    (tr = .error msg →
      App.stopRecordingFlow (some (key, p)) tr pol =
        (.failed msg, [.transcribeCall])) ∧
    (100 ≤ b64.length → r.ok = false → r.status = 401 →
      App.stopRecordingFlow (some (key, p))
        (Transcription.transcribeNative u key p ⟨.success b64, .resp r⟩).1 pol =
        (.failed "Invalid API key. Please check your key in Settings.",
         [.transcribeCall])) := by
  refine ⟨?_, ?_, ?_⟩
  · cases kd with
    | none => exact Or.inl rfl
    | some kv =>
      cases tr with
      | error m => exact Or.inr (Or.inl rfl)
      | ok raw => exact Or.inr (Or.inr rfl)
  · intro h
    subst h
    rfl
  · intro hlen hok hst
    have hres : (Transcription.transcribeNative u key p
        ⟨.success b64, .resp r⟩).1 =
        .error "Invalid API key. Please check your key in Settings." := by
      simp [Transcription.transcribeNative, Nat.not_lt.mpr hlen, hok, hst,
        Transcription.parseErrorMessage]
    rw [hres]
    rfl

/-- C9 witness: a concrete 401 transcription failure alerts the fixed
invalid-key message and performs no polish call. -/
theorem claim_C9_witness :
    App.stopRecordingFlow (some ("sk-test", .openai))
      (Transcription.transcribeNative "file:///rec.m4a" "sk-test" .openai
        ⟨.success "QQQQQQQQQQQQQQQQQQQQQQQQQQQQQQQQQQQQQQQQQQQQQQQQQQQQQQQQQQQQQQQQQQQQQQQQQQQQQQQQQQQQQQQQQQQQQQQQQQQQQQQQ",
         .resp ⟨false, 401, "Unauthorized", some (some "Invalid API key provided.")⟩⟩).1
      (fun s => s) =
      (.failed "Invalid API key. Please check your key in Settings.",
       [.transcribeCall]) :=
  (claim_C9_ordering (some ("sk-test", .openai)) (.error "x") (fun s => s)
    "sk-test" "file:///rec.m4a" .openai
    "QQQQQQQQQQQQQQQQQQQQQQQQQQQQQQQQQQQQQQQQQQQQQQQQQQQQQQQQQQQQQQQQQQQQQQQQQQQQQQQQQQQQQQQQQQQQQQQQQQQQQQQQ"
    "x" ⟨false, 401, "Unauthorized", some (some "Invalid API key provided.")⟩).2.2
    (by decide) rfl rfl

/-- C10 counterexample: `polishWeb` applies no trim to the relay's
`text` field, so a whitespace-only field is returned as-is instead of
substituting the original input text. -/
theorem claim_C10_counterexample :
    (Transcription.polishWeb "hello world" "sk-test" .openai
      (.resp true 200 (.ok (some "   ")))).1 = "   " ∧
    jsTrim "   " = "" ∧
    ("   " : String) ≠ "hello world" := by
  refine ⟨rfl, rfl, by decide⟩

/-- C10 (amended): for non-empty input both polish paths return a
non-empty result; `polishNative` substitutes the input whenever the
refined content is missing, empty or whitespace-only (trim-falsy), and
the relay's polish handler does the same server-side; `polishWeb`
itself substitutes only a missing or empty `text` field — a
whitespace-only field is passed through (counterexample). -/
theorem claim_C10_amended (raw key reqKey reqText : String) (p : Provider)
    (nEnv : PolishFetchOutcome) (wEnv : RelayPolishOutcome) (st : Nat)
    (c wf content : Option String) (errText : String)
    (hraw : raw ≠ "") (hkey : reqKey ≠ "") (hreq : reqText ≠ "") :
    (Transcription.polishNative raw key p nEnv).1 ≠ "" ∧
    (Transcription.polishWeb raw key p wEnv).1 ≠ "" ∧
    ((c = none ∨ ∃ t, c = some t ∧ jsTrim t = "") →
      (Transcription.polishNative raw key p (.resp true st (.ok c))).1 = raw) ∧
    ((wf = none ∨ wf = some "") →
      (Transcription.polishWeb raw key p (.resp true st (.ok wf))).1 = raw) ∧
    ((content = none ∨ ∃ t, content = some t ∧ jsTrim t = "") →
      Routes.polishRoute ⟨some reqKey, some "openai", some reqText⟩
        (.resp true st errText (.ok content)) = (.okJson reqText, true)) := by
  refine ⟨?_, ?_, ?_, ?_, ?_⟩
  · cases nEnv with
    | abort => exact hraw
    | netError m => exact hraw
    | resp ok st2 json =>
      cases ok with
      | false => simpa [Transcription.polishNative] using hraw
      | true =>
        cases json with
        | fail m => simpa [Transcription.polishNative] using hraw
        | ok c2 =>
          simpa [Transcription.polishNative] using
            jsOr_ne_empty (c2.map jsTrim) raw hraw
  · cases wEnv with
    | netError m => exact hraw
    | resp ok st2 json =>
      cases ok with
      | false => simpa [Transcription.polishWeb] using hraw
      | true =>
        cases json with
        | fail m => simpa [Transcription.polishWeb] using hraw
        | ok tf => simpa [Transcription.polishWeb] using jsOr_ne_empty tf raw hraw
  · intro h
    rcases h with h | ⟨t, ht, htr⟩
    · simp [Transcription.polishNative, h, jsOr]
    · simp [Transcription.polishNative, ht, htr, jsOr]
  · intro h
    rcases h with h | h
    · simp [Transcription.polishWeb, h, jsOr]
    · simp [Transcription.polishWeb, h, jsOr]
  · intro h
    rcases h with h | ⟨t, ht, htr⟩
    · simp [Routes.polishRoute, Routes.jsFalsy, hkey, hreq, h, jsOr]
    · simp [Routes.polishRoute, Routes.jsFalsy, hkey, hreq, ht, htr, jsOr]

/-- C10 witness: a whitespace-only refined content makes the native
path return the original text, and the relay substitutes the request
text when the upstream payload lacks the content field. -/
theorem claim_C10_witness :
    (Transcription.polishNative "hello" "sk-test" .openai
      (.resp true 200 (.ok (some "  ")))).1 = "hello" ∧
    Routes.polishRoute ⟨some "sk-test", some "openai", some "hello"⟩
      (.resp true 200 "" (.ok none)) = (.okJson "hello", true) := by
  have h := claim_C10_amended "hello" "sk-test" "sk-test" "hello" .openai
    .abort (.netError "x") 200 (some "  ") (some "") none ""
    (by decide) (by decide) (by decide)
  exact ⟨h.2.2.1 (Or.inr ⟨"  ", rfl, by decide⟩), h.2.2.2.2 (Or.inl rfl)⟩

end VTT
